import Mathlib

/-!
Shallow embedding of the trade/authentication orchestration layer of the
perpetual-trading dashboard: the `PasskeyService` class (trade execution,
simulation fallback, mock vault ledger, passkey authentication) and the
trading store actions (`executeTradeWithDebug`, `registerPasskey`,
`authenticateWithPasskey`, `placeOrder`).

Conventions of the embedding:
* JavaScript numbers that hold decimal amounts are modelled as `ℚ`.
* A string argument that is parsed with `parseFloat` is modelled as
  `Option ℚ`: `none` stands for the empty string, `some q` for a numeric
  string whose parsed value is `q`.
* Network and authenticator interactions are modelled by explicit
  environment parameters (the outcome each remote call would produce) and
  by an explicit trace of emitted events, so that temporal claims such as
  "the transaction is never signed" become statements about the trace.
* A JavaScript function that can either return a result or throw is
  modelled with `Except String α`: `Except.error msg` is a thrown
  exception carrying message `msg`.
-/

/-- Result record `{ success, transactionHash?, error? }` returned by
`PasskeyService.executeTrade`, `executeTradeViaSubmit`,
`simulateTradeSuccess` and `executeTradeWithSimulation`. -/
structure TradeResult where
  success : Bool
  transactionHash : Option String := none
  error : Option String := none
deriving DecidableEq

/-- Result record `AuthResult` returned by `register` and `authenticate`. -/
structure AuthResult where
  success : Bool
  userId : Option String := none
  publicKey : Option String := none
  stellarPublicKey : Option String := none
  contractId : Option String := none
  error : Option String := none
deriving DecidableEq

/-- `PasskeyService.simulateTradeSuccess` (part_001 lines 98-127): waits a
fixed delay, generates a random 64-hex-character mock hash, and always
returns success.  The randomly generated hash is passed in as `mockHash`. -/
def simulateTradeSuccess (mockHash : String) : TradeResult :=
  { success := true, transactionHash := some mockHash }

/-- `PasskeyService.executeTradeWithSimulation` (part_001 lines 130-172).
`forceSimulation` is the flag argument; `realOutcome` is what the inner
`executeTrade` call would do (`Except.error` models a thrown exception);
`mockHash` is the random hash the mock generator would produce. -/
def executeTradeWithSimulation (forceSimulation : Bool)
    (realOutcome : Except String TradeResult) (mockHash : String) : TradeResult :=
  if forceSimulation then
    simulateTradeSuccess mockHash
  else
    match realOutcome with
    | Except.ok realResult =>
        if realResult.success then
          realResult
        else
          let simulationResult := simulateTradeSuccess mockHash
          { simulationResult with
            error := if simulationResult.success then
                some "Real transaction failed, showing simulated success for demonstration"
              else simulationResult.error }
    | Except.error _ => simulateTradeSuccess mockHash

/-- The `mockVaultData` record (part_001 lines 213-219). -/
structure VaultData where
  totalLiquidity : ℚ
  userShares : ℚ
  apy : ℚ
  totalShares : ℚ
  userDeposited : ℚ
deriving DecidableEq

/-- The persisted simulated ledger: `mockKaleBalance` plus `mockVaultData`. -/
structure SimLedger where
  mockTokenBalance : ℚ
  vault : VaultData
deriving DecidableEq

/-- Result record `{ success, error? }` of the vault simulation operations. -/
structure OpResult where
  success : Bool
  error : Option String := none
deriving DecidableEq

/-- `PasskeyService.simulateVaultDeposit` (part_001 lines 247-289), as a
state transformer over the simulated ledger.  The balance debit goes
through `updateMockBalance`, which clamps at 0 (line 181). -/
def simulateVaultDeposit (amount : ℚ) (s : SimLedger) : OpResult × SimLedger :=
  if amount > s.mockTokenBalance then
    ({ success := false, error := some "Insufficient balance for deposit" }, s)
  else
    let newShares := if s.vault.totalShares > 0 then
        amount / s.vault.totalLiquidity * s.vault.totalShares
      else amount
    ({ success := true },
     { mockTokenBalance := max 0 (s.mockTokenBalance - amount),
       vault :=
        { totalLiquidity := s.vault.totalLiquidity + amount,
          userShares := s.vault.userShares + newShares,
          apy := s.vault.apy,
          totalShares := s.vault.totalShares + newShares,
          userDeposited := s.vault.userDeposited + amount } })

/-- The `userValue` computed at the start of `simulateVaultWithdraw`
(part_001 lines 300-301). -/
def userValue (s : SimLedger) : ℚ :=
  if s.vault.totalShares > 0 then
    s.vault.userShares / s.vault.totalShares * s.vault.totalLiquidity
  else 0

/-- `PasskeyService.simulateVaultWithdraw` (part_001 lines 292-341).  The
credit of the withdrawn amount (lines 323-331) is a plain addition, with
no clamp. -/
def simulateVaultWithdraw (amount : ℚ) (s : SimLedger) : OpResult × SimLedger :=
  if amount > userValue s then
    ({ success := false, error := some "Insufficient vault position for withdrawal" }, s)
  else
    let sharesToBurn := amount / s.vault.totalLiquidity * s.vault.totalShares
    ({ success := true },
     { mockTokenBalance := s.mockTokenBalance + amount,
       vault :=
        { totalLiquidity := max 0 (s.vault.totalLiquidity - amount),
          userShares := max 0 (s.vault.userShares - sharesToBurn),
          apy := s.vault.apy,
          totalShares := max 0 (s.vault.totalShares - sharesToBurn),
          userDeposited := max 0 (s.vault.userDeposited - amount) } })

/-- Arguments of the `create_position` contract invocation built by
`executeTrade` (part_001 lines 680-696): trader address, asset enum tag,
scaled amount, leveraged notional, direction, entry price. -/
structure CreatePositionArgs where
  trader : String
  asset : String
  amount : Int
  notional : Int
  isLong : Bool
  entryPrice : Int
deriving DecidableEq

/-- `BigInt(Math.floor(parseFloat(amount) * 10**7))` (part_001 line 660). -/
def scaledAmountOf (q : ℚ) : Int := Int.floor (q * 10 ^ 7)

/-- The hardcoded entry price `BigInt(Math.floor(0.50 * 10**7))`
(part_001 lines 676 and 1001). -/
def entryPriceConst : Int := Int.floor ((1 / 2 : ℚ) * 10 ^ 7)

/-- The `create_position` invocation arguments as assembled by
`executeTrade` (part_001 lines 660-696). -/
def buildCreatePositionArgs (pk market : String) (isLong : Bool) (q : ℚ)
    (lev : Int) : CreatePositionArgs :=
  { trader := pk, asset := market, amount := scaledAmountOf q,
    notional := scaledAmountOf q * lev, isLong := isLong,
    entryPrice := entryPriceConst }

/-- The `openPositionRequest` struct sent by `executeTradeViaSubmit`
(part_001 lines 1003-1007): `action = 1`, `data = entryPrice`,
`position = 0`. -/
structure SubmitRequest where
  action : Nat
  data : Int
  position : Nat
deriving DecidableEq

/-- part_001 lines 1003-1007. -/
def buildOpenPositionRequest : SubmitRequest :=
  { action := 1, data := entryPriceConst, position := 0 }

/-- Observable actions performed by the gateway while executing a trade. -/
inductive Event where
  | getAccount
  | simulateCreate (args : CreatePositionArgs)
  | simulateSubmit (trader : String) (reqs : List SubmitRequest)
  | sign
  | submitTx
  | sleep (ms : Nat)
  | poll (i : Nat)
deriving DecidableEq

/-- Outcome of one `getTransaction` poll: terminal success, terminal
failure, a still-pending status, or a thrown exception (which the loop
catches and ignores, part_001 lines 735-737). -/
inductive PollOutcome where
  | success
  | failed
  | pending
  | threw
deriving DecidableEq

/-- The remote-network behaviour an execution runs against: what the
pre-flight simulation reports, the status/hash `sendTransaction` returns,
and the outcome of each poll iteration. -/
structure NetworkEnv where
  simError : Option String
  sendStatus : String
  sendHash : String
  poll : Nat → PollOutcome

/-- Result returned when the poll budget is exhausted (part_001
lines 740-743). -/
def timeoutResult : TradeResult :=
  { success := false,
    error := some "Transaction is taking longer than expected. Check transaction status manually." }

/-- Result returned when a poll reports FAILED (part_001 line 733). -/
def postSubmitFailResult : TradeResult :=
  { success := false, error := some "Transaction failed after submission" }

/-- The poll loop of part_001 lines 725-743 (identical at lines
1053-1071): starting at iteration `i` with `n` iterations left, sleep
2000 ms, query the transaction, stop on a terminal status, otherwise
continue. -/
def pollLoop (f : Nat → PollOutcome) (hash : String) :
    Nat → Nat → TradeResult × List Event
  | _, 0 => (timeoutResult, [])
  | i, n + 1 =>
    let evs := [Event.sleep 2000, Event.poll i]
    match f i with
    | PollOutcome.success => ({ success := true, transactionHash := some hash }, evs)
    | PollOutcome.failed => (postSubmitFailResult, evs)
    | _ =>
      let rest := pollLoop f hash (i + 1) n
      (rest.1, evs ++ rest.2)

/-- Handling of the `sendTransaction` status shared by `executeTrade`
(part_001 lines 716-749) and `executeTradeViaSubmit` (lines 1045-1077):
SUCCESS is terminal, PENDING enters the poll loop with budget 10, any
other status is a failure carrying the lowercased status. -/
def handleSendResult (env : NetworkEnv) : TradeResult × List Event :=
  if env.sendStatus = "SUCCESS" then
    ({ success := true, transactionHash := some env.sendHash }, [])
  else if env.sendStatus = "PENDING" then
    pollLoop env.poll env.sendHash 0 10
  else
    ({ success := false, error := some ("Transaction " ++ env.sendStatus.toLower) }, [])

/-- `PasskeyService.executeTrade` (part_001 lines 626-770).  `amount` is
the string argument (`none` = empty string, `some q` = parses to `q`);
`authOk` is whether the inner `authenticate()` call succeeds; `pk` is the
derived public key.  Returns the result together with the trace of
gateway actions. -/
def executeTrade (market : String) (isLong : Bool) (amount : Option ℚ)
    (lev : Int) (authOk : Bool) (pk : String) (env : NetworkEnv) :
    TradeResult × List Event :=
  if market = "" ∨ amount = none ∨ amount.getD 0 ≤ 0 then
    ({ success := false, error := some "Invalid trade parameters" }, [])
  else if lev < 1 ∨ 100 < lev then
    ({ success := false, error := some "Leverage must be between 1x and 100x" }, [])
  else if ¬authOk then
    ({ success := false, error := some "Authentication required" }, [])
  else
    let args := buildCreatePositionArgs pk market isLong (amount.getD 0) lev
    let pre := [Event.getAccount, Event.simulateCreate args]
    match env.simError with
    | some msg =>
        ({ success := false, error := some ("Transaction failed: " ++ msg) }, pre)
    | none =>
        let post := handleSendResult env
        (post.1, pre ++ [Event.sign, Event.submitTx] ++ post.2)

/-- `PasskeyService.executeTradeViaSubmit` (part_001 lines 976-1086).
Unlike `executeTrade` it performs no input validation; it builds a
`submit` invocation carrying one open-position request. -/
def executeTradeViaSubmit (market : String) (isLong : Bool)
    (amount : Option ℚ) (lev : Int) (authOk : Bool) (pk : String)
    (env : NetworkEnv) : TradeResult × List Event :=
  if ¬authOk then
    ({ success := false, error := some "Authentication required" }, [])
  else
    let pre := [Event.getAccount, Event.simulateSubmit pk [buildOpenPositionRequest]]
    match env.simError with
    | some msg =>
        ({ success := false, error := some ("Submit simulation failed: " ++ msg) }, pre)
    | none =>
        let post := handleSendResult env
        (post.1, pre ++ [Event.sign, Event.submitTx] ++ post.2)

/-- The `PasskeyAuth` record returned by `getAuthStatus` (part_001
lines 1231-1256). -/
structure PasskeyAuthStatus where
  isAuthenticated : Bool
  userId : Option String := none
  publicKey : Option String := none
  stellarPublicKey : Option String := none
  contractId : Option String := none
deriving DecidableEq

/-- What `authenticate()` does before reaching any authenticator prompt:
it may return a result immediately, throw, or proceed to the platform
authenticator. -/
inductive AuthStep where
  | returnResult (r : AuthResult)
  | throwInProgress
  | promptAuthenticator
deriving DecidableEq

/-- The success result built from a still-valid stored session (part_001
lines 542-548). -/
def statusResult (st : PasskeyAuthStatus) : AuthResult :=
  { success := true, userId := st.userId, publicKey := st.publicKey,
    stellarPublicKey := st.stellarPublicKey, contractId := st.contractId }

/-- The entry logic of `PasskeyService.authenticate` (part_001
lines 535-556): if a call is in flight and a previous result is cached,
return that cached result; else if the stored session is still valid,
return it; else if a call is in flight, throw; otherwise set the
in-progress flag and proceed to the authenticator. -/
def authenticateEntry (inProgress : Bool) (lastAuthResult : Option AuthResult)
    (st : PasskeyAuthStatus) : AuthStep :=
  if inProgress ∧ lastAuthResult.isSome then
    AuthStep.returnResult (lastAuthResult.getD { success := false })
  else if st.isAuthenticated then
    AuthStep.returnResult (statusResult st)
  else if inProgress then
    AuthStep.throwInProgress
  else
    AuthStep.promptAuthenticator

/-- Which service entry points `executeTradeWithDebug` invokes. -/
inductive DebugCall where
  | viaSubmit
  | createPosition
deriving DecidableEq

/-- JavaScript template interpolation of a possibly-undefined error
field: `undefined` prints as the string "undefined". -/
def errText (r : TradeResult) : String := r.error.getD "undefined"

/-- `executeTradeWithDebug` of the trading store (trading.ts
lines 363-430).  `submitRes` / `createRes` are the results the two
service calls would return; the trace records which entry points were
actually invoked, in order. -/
def executeTradeWithDebug (authed : Bool) (amount : Option ℚ) (lev : Int)
    (submitRes createRes : TradeResult) : TradeResult × List DebugCall :=
  if ¬authed then
    ({ success := false, error := some "Please authenticate with your passkey first" }, [])
  else if amount = none ∨ amount.getD 0 ≤ 0 then
    ({ success := false, error := some "Please enter a valid trade amount" }, [])
  else if lev < 1 ∨ 100 < lev then
    ({ success := false, error := some "Leverage must be between 1x and 100x" }, [])
  else if submitRes.success then
    ({ success := true, transactionHash := submitRes.transactionHash },
     [DebugCall.viaSubmit])
  else if createRes.success then
    ({ success := true, transactionHash := createRes.transactionHash },
     [DebugCall.viaSubmit, DebugCall.createPosition])
  else
    ({ success := false,
       error := some ("Both trade methods failed. Submit error: " ++ errText submitRes
         ++ ". Create position error: " ++ errText createRes) },
     [DebugCall.viaSubmit, DebugCall.createPosition])

/-- Observable outcome of one run of a lock-guarded store operation:
its returned result, the value of `operationInProgress` while the inner
service call runs, its value after the operation returns, and whether
the inner service (and hence the authenticator) was invoked at all. -/
structure GuardedRun where
  result : AuthResult
  lockDuring : Bool
  lockAfter : Bool
  serviceInvoked : Bool
deriving DecidableEq

/-- `registerPasskey` of the trading store (trading.ts lines 432-475).
`lock` is the value of `operationInProgress` on entry; `svc` is what
`passkeyService.register` would do (`Except.error` models a thrown
exception, which the catch block converts to a failure result; the
`finally` clears the lock on both paths). -/
def registerPasskey (lock : Bool) (svc : Except String AuthResult) : GuardedRun :=
  if lock then
    { result := { success := false, error := some "Another operation is in progress" },
      lockDuring := lock, lockAfter := lock, serviceInvoked := false }
  else
    match svc with
    | Except.ok r =>
        { result := r, lockDuring := true, lockAfter := false, serviceInvoked := true }
    | Except.error msg =>
        { result := { success := false, error := some msg },
          lockDuring := true, lockAfter := false, serviceInvoked := true }

/-- `authenticateWithPasskey` of the trading store (trading.ts
lines 477-531).  When no stored `userId` exists it calls
`get().registerPasskey()` — with `operationInProgress` already set to
true by this very operation — and returns that inner result; its own
`finally` still clears the lock. -/
def authenticateWithPasskey (lock : Bool) (hasUserId : Bool)
    (regSvc authSvc : Except String AuthResult) : GuardedRun :=
  if lock then
    { result := { success := false, error := some "Another operation is in progress" },
      lockDuring := lock, lockAfter := lock, serviceInvoked := false }
  else if ¬hasUserId then
    let inner := registerPasskey true regSvc
    { result := inner.result, lockDuring := true, lockAfter := false,
      serviceInvoked := inner.serviceInvoked }
  else
    match authSvc with
    | Except.ok r =>
        { result := r, lockDuring := true, lockAfter := false, serviceInvoked := true }
    | Except.error msg =>
        { result := { success := false, error := some msg },
          lockDuring := true, lockAfter := false, serviceInvoked := true }

/-- The allow-list of trading.ts line 610. -/
def supportedMarkets : List String := ["XLM", "BTC", "ETH"]

/-- `executeSmartContractTrade` of the trading store (trading.ts
lines 218-278): input validation, then a call into
`passkeyService.executeTradeWithSimulation`.  `gatewayResult` is what
that call would return; the returned flag records whether it was
invoked. -/
def executeSmartContractTrade (authed : Bool) (amount : Option ℚ)
    (lev : Int) (gatewayResult : TradeResult) : TradeResult × Bool :=
  if ¬authed then
    ({ success := false, error := some "Please authenticate with your passkey first" }, false)
  else if amount = none ∨ amount.getD 0 ≤ 0 then
    ({ success := false, error := some "Please enter a valid trade amount" }, false)
  else if lev < 1 ∨ 100 < lev then
    ({ success := false, error := some "Leverage must be between 1x and 100x" }, false)
  else
    (gatewayResult, true)

/-- `placeOrder` of the trading store (trading.ts lines 592-634):
validates the order size and leverage, rejects markets outside the
allow-list, and otherwise delegates to `executeSmartContractTrade`.
The returned flag records whether the gateway was invoked. -/
def placeOrder (orderSize : Option ℚ) (lev : Int) (baseAsset : String)
    (authed : Bool) (gatewayResult : TradeResult) : TradeResult × Bool :=
  if orderSize = none ∨ orderSize.getD 0 ≤ 0 then
    ({ success := false, error := some "Please enter a valid order size" }, false)
  else if lev < 1 ∨ 100 < lev then
    ({ success := false, error := some "Leverage must be between 1x and 100x" }, false)
  else if baseAsset ∈ supportedMarkets then
    executeSmartContractTrade authed orderSize lev gatewayResult
  else
    ({ success := false, error := some "Market not supported for smart contract trading" }, false)

/-- A never-touched vault ledger: no liquidity, no shares, the default
1000 token balance. -/
def freshVaultLedger : SimLedger :=
  { mockTokenBalance := 1000,
    vault := { totalLiquidity := 0, userShares := 0, apy := 25 / 2,
               totalShares := 0, userDeposited := 0 } }

/-- Claim C6 (confirmed): `simulateVaultDeposit amount` fails with the
insufficient-balance error iff `amount > mockTokenBalance`, leaving the
ledger unchanged; otherwise it succeeds and performs exactly the share
computation and the five field updates of the claim, debiting the balance
by `amount`. -/
theorem simulateVaultDeposit_spec (amount : ℚ) (s : SimLedger) :
    ((simulateVaultDeposit amount s).1.success = false ↔ amount > s.mockTokenBalance) ∧
    (amount > s.mockTokenBalance →
      (simulateVaultDeposit amount s).1.error = some "Insufficient balance for deposit" ∧
      (simulateVaultDeposit amount s).2 = s) ∧
    (amount ≤ s.mockTokenBalance →
      (simulateVaultDeposit amount s).1 = { success := true } ∧
      (simulateVaultDeposit amount s).2 =
        { mockTokenBalance := s.mockTokenBalance - amount,
          vault :=
            { totalLiquidity := s.vault.totalLiquidity + amount,
              userShares := s.vault.userShares +
                (if s.vault.totalShares > 0 then
                  amount / s.vault.totalLiquidity * s.vault.totalShares
                 else amount),
              apy := s.vault.apy,
              totalShares := s.vault.totalShares +
                (if s.vault.totalShares > 0 then
                  amount / s.vault.totalLiquidity * s.vault.totalShares
                 else amount),
              userDeposited := s.vault.userDeposited + amount } }) := by
  by_cases h : amount > s.mockTokenBalance
  · refine ⟨by simp [simulateVaultDeposit, h], fun _ => by simp [simulateVaultDeposit, h],
      fun hle => absurd h (not_lt.mpr hle)⟩
  · have hmax : max 0 (s.mockTokenBalance - amount) = s.mockTokenBalance - amount :=
      max_eq_right (by rw [not_lt] at h; linarith)
    exact ⟨by simp [simulateVaultDeposit, h], fun hgt => absurd hgt h,
      fun _ => by simp [simulateVaultDeposit, h, hmax]⟩

/-- Witness for C6: the first-ever deposit of 500 into the fresh vault
(totalShares = 0) succeeds and credits exactly 500 user shares. -/
theorem simulateVaultDeposit_spec_witness :
    (simulateVaultDeposit 500 freshVaultLedger).1 = { success := true } ∧
    (simulateVaultDeposit 500 freshVaultLedger).2.vault.userShares = 500 := by
  have h := (simulateVaultDeposit_spec 500 freshVaultLedger).2.2
    (by norm_num [freshVaultLedger])
  refine ⟨h.1, ?_⟩
  rw [h.2]
  norm_num [freshVaultLedger]

/-- Claim C8 (confirmed): `operationInProgress` is true while the service
call of a guarded operation runs and false after it returns, on the
success, failure and exception paths alike; a `registerPasskey` call that
finds the lock held returns the in-progress failure immediately, leaves
the lock as it was, and never invokes the authenticator (and the same
guard protects `authenticateWithPasskey`). -/
theorem operationLock_spec (svc regSvc authSvc : Except String AuthResult)
    (hasUserId : Bool) :
    registerPasskey true svc =
      { result := { success := false, error := some "Another operation is in progress" },
        lockDuring := true, lockAfter := true, serviceInvoked := false } ∧
    (registerPasskey false svc).lockDuring = true ∧
    (registerPasskey false svc).lockAfter = false ∧
    (authenticateWithPasskey true hasUserId regSvc authSvc).result =
      { success := false, error := some "Another operation is in progress" } ∧
    (authenticateWithPasskey true hasUserId regSvc authSvc).serviceInvoked = false ∧
    (authenticateWithPasskey false hasUserId regSvc authSvc).lockDuring = true ∧
    (authenticateWithPasskey false hasUserId regSvc authSvc).lockAfter = false := by
  cases hasUserId <;> cases svc <;> cases regSvc <;> cases authSvc <;>
    simp [registerPasskey, authenticateWithPasskey]

/-- Claim C9 (confirmed): an order whose size is empty or nonpositive,
whose leverage lies outside [1,100], or whose market is outside the
allow-list is rejected by `placeOrder` with a failure result, and the
gateway is never invoked. -/
theorem placeOrder_rejects_invalid (orderSize : Option ℚ) (lev : Int)
    (baseAsset : String) (authed : Bool) (g : TradeResult)
    (hbad : orderSize = none ∨ orderSize.getD 0 ≤ 0 ∨ lev < 1 ∨ 100 < lev ∨
      baseAsset ∉ supportedMarkets) :
    (placeOrder orderSize lev baseAsset authed g).1.success = false ∧
    (placeOrder orderSize lev baseAsset authed g).2 = false := by
  unfold placeOrder
  split_ifs with h1 h2 h3
  · exact ⟨rfl, rfl⟩
  · exact ⟨rfl, rfl⟩
  · exfalso
    rcases hbad with h | h | h | h | h
    · exact h1 (Or.inl h)
    · exact h1 (Or.inr h)
    · exact h2 (Or.inl h)
    · exact h2 (Or.inr h)
    · exact h h3
  · exact ⟨rfl, rfl⟩

/-- Witness for C9: leverage 0 with a well-formed size on a supported
market is rejected and the gateway flag stays false. -/
theorem placeOrder_rejects_invalid_witness :
    (placeOrder (some 5) 0 "XLM" true { success := true }).1.success = false ∧
    (placeOrder (some 5) 0 "XLM" true { success := true }).2 = false :=
  placeOrder_rejects_invalid (some 5) 0 "XLM" true { success := true }
    (Or.inr (Or.inr (Or.inl (by norm_num))))

/-- A network environment whose submission immediately succeeds. -/
def envSendSuccess : NetworkEnv :=
  { simError := none, sendStatus := "SUCCESS", sendHash := "deadbeef",
    poll := fun _ => PollOutcome.pending }

/-- Counterexample to claim C1: when the real path fails with the
authentication error (exactly the result `executeTrade` returns when its
inner `authenticate()` fails), `executeTradeWithSimulation` does not
propagate it — it returns a simulated success carrying the fallback
note, masking the authentication failure. -/
theorem executeTradeWithSimulation_auth_cex :
    (executeTrade "XLM" true (some 1) 2 false "GA" envSendSuccess).1 =
      { success := false, error := some "Authentication required" } ∧
    (executeTradeWithSimulation false
        (Except.ok { success := false, error := some "Authentication required" })
        "ab").success = true ∧
    (executeTradeWithSimulation false
        (Except.ok { success := false, error := some "Authentication required" })
        "ab").error =
      some "Real transaction failed, showing simulated success for demonstration" := by
  refine ⟨by decide, by decide, by decide⟩

/-- Claim C1 as amended: every real-path trade failure — authentication
failures included — is replaced by a simulated fallback success carrying
the mock hash.  When the real attempt returned a failure result the
fallback is tagged with the demonstration note; when the real attempt
threw, the untagged simulated success is returned.  No real-path failure
is ever propagated. -/
theorem executeTradeWithSimulation_fallback (realOutcome : Except String TradeResult)
    (mockHash : String)
    (hfail : ∀ r, realOutcome = Except.ok r → r.success = false) :
    (executeTradeWithSimulation false realOutcome mockHash).success = true ∧
    (executeTradeWithSimulation false realOutcome mockHash).transactionHash = some mockHash ∧
    (∀ r, realOutcome = Except.ok r →
      (executeTradeWithSimulation false realOutcome mockHash).error =
        some "Real transaction failed, showing simulated success for demonstration") ∧
    (∀ msg, realOutcome = Except.error msg →
      (executeTradeWithSimulation false realOutcome mockHash).error = none) := by
  cases realOutcome with
  | ok r =>
      have hr := hfail r rfl
      simp [executeTradeWithSimulation, simulateTradeSuccess, hr]
  | error msg =>
      simp [executeTradeWithSimulation, simulateTradeSuccess]

/-- Witness for the amended C1: a real-path authentication failure is
turned into a tagged simulated success with the mock hash. -/
theorem executeTradeWithSimulation_fallback_witness :
    (executeTradeWithSimulation false
        (Except.ok { success := false, error := some "Authentication required" })
        "ab").success = true ∧
    (executeTradeWithSimulation false
        (Except.ok { success := false, error := some "Authentication required" })
        "ab").transactionHash = some "ab" := by
  have h := executeTradeWithSimulation_fallback
    (Except.ok { success := false, error := some "Authentication required" }) "ab"
    (fun r hr => by cases hr; rfl)
  exact ⟨h.1, h.2.1⟩

/-- Counterexample to claim C4: a second `authenticate()` call made while
the first is still in flight — and before any authenticate has ever
completed, so no result is cached — throws the in-progress error instead
of returning the in-flight result to the caller. -/
theorem authenticate_concurrent_cex :
    authenticateEntry true none { isAuthenticated := false } = AuthStep.throwInProgress ∧
    AuthStep.throwInProgress ≠
      AuthStep.returnResult { success := true, userId := some "user1" } := by decide

/-- Claim C4 as amended: a second `authenticate()` call while one is in
flight never reaches the authenticator (so only one prompt occurs), but
it does not return the in-flight result: it returns the cached result of
the last completed authenticate if one exists, the stored-session result
if the persisted session is still valid, and otherwise throws the
in-progress error. -/
theorem authenticate_concurrent_amended (last : Option AuthResult)
    (st : PasskeyAuthStatus) :
    authenticateEntry true last st ≠ AuthStep.promptAuthenticator ∧
    (∀ r, last = some r → authenticateEntry true last st = AuthStep.returnResult r) ∧
    (last = none → st.isAuthenticated = true →
      authenticateEntry true last st = AuthStep.returnResult (statusResult st)) ∧
    (last = none → st.isAuthenticated = false →
      authenticateEntry true last st = AuthStep.throwInProgress) := by
  cases last with
  | none => cases hst : st.isAuthenticated <;> simp [authenticateEntry, hst]
  | some r => simp [authenticateEntry]

/-- Witness for the amended C4: with a cached previous result, the
concurrent call returns exactly that cached result. -/
theorem authenticate_concurrent_amended_witness :
    authenticateEntry true (some { success := true, userId := some "u" })
        { isAuthenticated := false } =
      AuthStep.returnResult { success := true, userId := some "u" } :=
  (authenticate_concurrent_amended (some { success := true, userId := some "u" })
    { isAuthenticated := false }).2.1 _ rfl

/-- Counterexample to claim C5: with a submit endpoint that succeeds and
a create_position endpoint that would fail, `executeTradeWithDebug`
invokes only the generic submit endpoint — the dedicated create_position
entry point is not tried first (it is never tried at all). -/
theorem executeTradeWithDebug_order_cex :
    (executeTradeWithDebug true (some 1) 2
        { success := true, transactionHash := some "subhash" }
        { success := false, error := some "create failed" }).2 =
      [DebugCall.viaSubmit] := by decide

/-- Claim C5 as amended: `executeTradeWithDebug` first invokes the
generic submit entry point and falls back to the dedicated
create_position entry point only if the submit call fails; when both
fail, it returns a single failure aggregating both error messages. -/
theorem executeTradeWithDebug_spec (amount : Option ℚ) (lev : Int)
    (submitRes createRes : TradeResult) (q : ℚ)
    (ha : amount = some q) (hq : 0 < q) (hl1 : 1 ≤ lev) (hl2 : lev ≤ 100) :
    ((executeTradeWithDebug true amount lev submitRes createRes).2.head? =
      some DebugCall.viaSubmit) ∧
    (submitRes.success = true →
      executeTradeWithDebug true amount lev submitRes createRes =
        ({ success := true, transactionHash := submitRes.transactionHash },
         [DebugCall.viaSubmit])) ∧
    (submitRes.success = false → createRes.success = true →
      executeTradeWithDebug true amount lev submitRes createRes =
        ({ success := true, transactionHash := createRes.transactionHash },
         [DebugCall.viaSubmit, DebugCall.createPosition])) ∧
    (submitRes.success = false → createRes.success = false →
      executeTradeWithDebug true amount lev submitRes createRes =
        ({ success := false,
           error := some ("Both trade methods failed. Submit error: " ++ errText submitRes
             ++ ". Create position error: " ++ errText createRes) },
         [DebugCall.viaSubmit, DebugCall.createPosition])) := by
  subst ha
  have hsz : ¬((some q : Option ℚ) = none ∨ (some q : Option ℚ).getD 0 ≤ 0) := by
    simp [not_le.mpr hq]
  have hlv : ¬(lev < 1 ∨ 100 < lev) := by
    omega
  cases hs : submitRes.success <;> cases hc : createRes.success <;>
    simp [executeTradeWithDebug, hsz, hlv, hs, hc, not_le.mpr hq]

/-- Witness for the amended C5: both endpoints failing yields the single
aggregated failure after trying submit first and create_position second. -/
theorem executeTradeWithDebug_spec_witness :
    executeTradeWithDebug true (some 1) 2
        { success := false, error := some "sub boom" }
        { success := false, error := some "create boom" } =
      ({ success := false,
         error := some "Both trade methods failed. Submit error: sub boom. Create position error: create boom" },
       [DebugCall.viaSubmit, DebugCall.createPosition]) := by
  have h := (executeTradeWithDebug_spec (some 1) 2
    { success := false, error := some "sub boom" }
    { success := false, error := some "create boom" } 1
    rfl (by norm_num) (by norm_num) (by norm_num)).2.2.2 rfl rfl
  simpa [errText] using h

/-- A network environment whose pre-flight simulation reports an error. -/
def envSimBoom : NetworkEnv :=
  { simError := some "boom", sendStatus := "PENDING", sendHash := "h1",
    poll := fun _ => PollOutcome.pending }

/-- Claim C2 (confirmed): on both trade paths, a pre-flight simulation
error aborts the attempt with the simulation-failure error, and the
trace contains neither a signing nor a submission action. -/
theorem simulation_gate (market pk : String) (isLong : Bool) (amount : Option ℚ)
    (lev : Int) (env : NetworkEnv) (msg : String) (q : ℚ)
    (hsim : env.simError = some msg) (hm : market ≠ "") (ha : amount = some q)
    (hq : 0 < q) (hl1 : 1 ≤ lev) (hl2 : lev ≤ 100) :
    (executeTrade market isLong amount lev true pk env).1 =
      { success := false, error := some ("Transaction failed: " ++ msg) } ∧
    Event.sign ∉ (executeTrade market isLong amount lev true pk env).2 ∧
    Event.submitTx ∉ (executeTrade market isLong amount lev true pk env).2 ∧
    (executeTradeViaSubmit market isLong amount lev true pk env).1 =
      { success := false, error := some ("Submit simulation failed: " ++ msg) } ∧
    Event.sign ∉ (executeTradeViaSubmit market isLong amount lev true pk env).2 ∧
    Event.submitTx ∉ (executeTradeViaSubmit market isLong amount lev true pk env).2 := by
  subst ha
  have hval : ¬(market = "" ∨ (some q : Option ℚ) = none ∨ (some q : Option ℚ).getD 0 ≤ 0) := by
    simp [hm, not_le.mpr hq]
  have hlv : ¬(lev < 1 ∨ 100 < lev) := by omega
  refine ⟨?_, ?_, ?_, ?_, ?_, ?_⟩ <;>
    simp [executeTrade, executeTradeViaSubmit, hval, hlv, hsim, hm, not_le.mpr hq]

/-- Witness for C2: a concrete failing pre-flight simulation on both
paths yields the two simulation-failure results. -/
theorem simulation_gate_witness :
    (executeTrade "XLM" true (some 1) 2 true "GA" envSimBoom).1 =
      { success := false, error := some "Transaction failed: boom" } ∧
    (executeTradeViaSubmit "XLM" true (some 1) 2 true "GA" envSimBoom).1 =
      { success := false, error := some "Submit simulation failed: boom" } := by
  have h := simulation_gate "XLM" "GA" true (some 1) 2 envSimBoom "boom" 1
    rfl (by decide) rfl (by norm_num) (by norm_num) (by norm_num)
  exact ⟨h.1, h.2.2.2.1⟩

/-- When no iteration in the window reports a terminal status, the loop
exhausts its budget, returns the timeout result, and polls every index
once, each poll preceded by the 2000 ms sleep. -/
theorem pollLoop_all_nonterminal (f : Nat → PollOutcome) (hash : String) :
    ∀ n i,
      (∀ j, i ≤ j → j < i + n → f j ≠ PollOutcome.success ∧ f j ≠ PollOutcome.failed) →
      pollLoop f hash i n =
        (timeoutResult, (List.range' i n).flatMap fun j => [Event.sleep 2000, Event.poll j]) := by
  intro n
  induction n with
  | zero => intro i _; simp [pollLoop]
  | succ n ih =>
    intro i h
    have hi := h i le_rfl (by omega)
    have hrec := ih (i + 1) (fun j hj1 hj2 => h j (by omega) (by omega))
    cases hfi : f i with
    | success => exact absurd hfi hi.1
    | failed => exact absurd hfi hi.2
    | pending => simp [pollLoop, hfi, hrec, List.range'_succ]
    | threw => simp [pollLoop, hfi, hrec, List.range'_succ]

/-- When iteration `k` is the first to report SUCCESS, the loop returns
the success result with the submission hash and performs exactly the
polls up to and including `k`. -/
theorem pollLoop_success_at (f : Nat → PollOutcome) (hash : String) (k : Nat)
    (hk : f k = PollOutcome.success) :
    ∀ n i, i ≤ k → k < i + n →
      (∀ j, i ≤ j → j < k → f j ≠ PollOutcome.success ∧ f j ≠ PollOutcome.failed) →
      pollLoop f hash i n =
        ({ success := true, transactionHash := some hash },
         (List.range' i (k - i + 1)).flatMap fun j => [Event.sleep 2000, Event.poll j]) := by
  intro n
  induction n with
  | zero => intro i h1 h2 _; omega
  | succ n ih =>
    intro i hik hkn hbefore
    by_cases hikk : i = k
    · subst hikk
      simp [pollLoop, hk, List.range'_succ]
    · have hlt : i < k := lt_of_le_of_ne hik hikk
      have hi := hbefore i le_rfl hlt
      have hrec := ih (i + 1) (by omega) (by omega)
        (fun j hj1 hj2 => hbefore j (by omega) hj2)
      have hkk : k - i + 1 = (k - (i + 1) + 1) + 1 := by omega
      rw [hkk]
      cases hfi : f i with
      | success => exact absurd hfi hi.1
      | failed => exact absurd hfi hi.2
      | pending => simp [pollLoop, hfi, hrec, List.range'_succ]
      | threw => simp [pollLoop, hfi, hrec, List.range'_succ]

/-- When iteration `k` is the first to report FAILED, the loop returns
the post-submission failure and performs exactly the polls up to and
including `k`. -/
theorem pollLoop_failed_at (f : Nat → PollOutcome) (hash : String) (k : Nat)
    (hk : f k = PollOutcome.failed) :
    ∀ n i, i ≤ k → k < i + n →
      (∀ j, i ≤ j → j < k → f j ≠ PollOutcome.success ∧ f j ≠ PollOutcome.failed) →
      pollLoop f hash i n =
        (postSubmitFailResult,
         (List.range' i (k - i + 1)).flatMap fun j => [Event.sleep 2000, Event.poll j]) := by
  intro n
  induction n with
  | zero => intro i h1 h2 _; omega
  | succ n ih =>
    intro i hik hkn hbefore
    by_cases hikk : i = k
    · subst hikk
      simp [pollLoop, hk, List.range'_succ]
    · have hlt : i < k := lt_of_le_of_ne hik hikk
      have hi := hbefore i le_rfl hlt
      have hrec := ih (i + 1) (by omega) (by omega)
        (fun j hj1 hj2 => hbefore j (by omega) hj2)
      have hkk : k - i + 1 = (k - (i + 1) + 1) + 1 := by omega
      rw [hkk]
      cases hfi : f i with
      | success => exact absurd hfi hi.1
      | failed => exact absurd hfi hi.2
      | pending => simp [pollLoop, hfi, hrec, List.range'_succ]
      | threw => simp [pollLoop, hfi, hrec, List.range'_succ]

/-- On a valid, authenticated trade whose simulation passes and whose
submission returns PENDING, `executeTrade` delegates to the poll loop
with budget 10 starting at iteration 0. -/
theorem executeTrade_pending (market pk : String) (isLong : Bool) (q : ℚ)
    (lev : Int) (env : NetworkEnv)
    (hm : market ≠ "") (hq : 0 < q) (hl1 : 1 ≤ lev) (hl2 : lev ≤ 100)
    (hsim : env.simError = none) (hps : env.sendStatus = "PENDING") :
    executeTrade market isLong (some q) lev true pk env =
      ((pollLoop env.poll env.sendHash 0 10).1,
       [Event.getAccount,
        Event.simulateCreate (buildCreatePositionArgs pk market isLong q lev),
        Event.sign, Event.submitTx] ++ (pollLoop env.poll env.sendHash 0 10).2) := by
  have hlv : ¬(lev < 1 ∨ 100 < lev) := by omega
  simp [executeTrade, handleSendResult, hlv, hsim, hps, hm, not_le.mpr hq]

/-- Claim C3 (confirmed): a PENDING submission enters a poll loop bounded
at 10 iterations with a 2000 ms sleep before each poll; the loop returns
success with the hash and stops as soon as an iteration reports SUCCESS,
returns the post-submission failure as soon as an iteration reports
FAILED, and after all 10 iterations returns the timeout error, which is
distinct from the FAILED error. -/
theorem executeTrade_poll_spec (market pk : String) (isLong : Bool) (q : ℚ)
    (lev : Int) (env : NetworkEnv)
    (hm : market ≠ "") (hq : 0 < q) (hl1 : 1 ≤ lev) (hl2 : lev ≤ 100)
    (hsim : env.simError = none) (hps : env.sendStatus = "PENDING") :
    ((∀ j, j < 10 → env.poll j ≠ PollOutcome.success ∧ env.poll j ≠ PollOutcome.failed) →
      executeTrade market isLong (some q) lev true pk env =
        (timeoutResult,
         [Event.getAccount,
          Event.simulateCreate (buildCreatePositionArgs pk market isLong q lev),
          Event.sign, Event.submitTx] ++
         (List.range' 0 10).flatMap fun j => [Event.sleep 2000, Event.poll j])) ∧
    (∀ k, k < 10 → env.poll k = PollOutcome.success →
      (∀ j, j < k → env.poll j ≠ PollOutcome.success ∧ env.poll j ≠ PollOutcome.failed) →
      executeTrade market isLong (some q) lev true pk env =
        ({ success := true, transactionHash := some env.sendHash },
         [Event.getAccount,
          Event.simulateCreate (buildCreatePositionArgs pk market isLong q lev),
          Event.sign, Event.submitTx] ++
         (List.range' 0 (k + 1)).flatMap fun j => [Event.sleep 2000, Event.poll j])) ∧
    (∀ k, k < 10 → env.poll k = PollOutcome.failed →
      (∀ j, j < k → env.poll j ≠ PollOutcome.success ∧ env.poll j ≠ PollOutcome.failed) →
      executeTrade market isLong (some q) lev true pk env =
        (postSubmitFailResult,
         [Event.getAccount,
          Event.simulateCreate (buildCreatePositionArgs pk market isLong q lev),
          Event.sign, Event.submitTx] ++
         (List.range' 0 (k + 1)).flatMap fun j => [Event.sleep 2000, Event.poll j])) ∧
    timeoutResult ≠ postSubmitFailResult := by
  rw [executeTrade_pending market pk isLong q lev env hm hq hl1 hl2 hsim hps]
  refine ⟨?_, ?_, ?_, by decide⟩
  · intro h
    rw [pollLoop_all_nonterminal env.poll env.sendHash 10 0
      (fun j hj1 hj2 => h j (by omega))]
  · intro k hk hsucc hbefore
    rw [pollLoop_success_at env.poll env.sendHash k hsucc 10 0 (by omega) (by omega)
      (fun j hj1 hj2 => hbefore j hj2)]
    simp
  · intro k hk hfail hbefore
    rw [pollLoop_failed_at env.poll env.sendHash k hfail 10 0 (by omega) (by omega)
      (fun j hj1 hj2 => hbefore j hj2)]
    simp

/-- A network environment that returns PENDING and whose transaction
lands on poll iteration 3 (index 2). -/
def envPendingPoll : NetworkEnv :=
  { simError := none, sendStatus := "PENDING", sendHash := "cafe",
    poll := fun i => if i = 2 then PollOutcome.success else PollOutcome.pending }

/-- Witness for C3: the scenario of the claim — a PENDING submission that
resolves to SUCCESS on poll iteration 3 of 10 returns success with the
hash and performs exactly the polls 0, 1 and 2. -/
theorem executeTrade_poll_spec_witness :
    executeTrade "XLM" true (some 1) 2 true "GA" envPendingPoll =
      ({ success := true, transactionHash := some "cafe" },
       [Event.getAccount,
        Event.simulateCreate (buildCreatePositionArgs "GA" "XLM" true 1 2),
        Event.sign, Event.submitTx] ++
       (List.range' 0 3).flatMap fun j => [Event.sleep 2000, Event.poll j]) := by
  have h := (executeTrade_poll_spec "XLM" "GA" true 1 2 envPendingPoll
    (by decide) (by norm_num) (by norm_num) (by norm_num) rfl rfl).2.1 2
    (by norm_num) (by decide) (by decide)
  simpa using h

/-- Success case of `simulateVaultWithdraw`: when the requested amount
does not exceed the user value, the four vault fields are decremented
(clamped at 0) and the balance is credited. -/
theorem simulateVaultWithdraw_ok (amount : ℚ) (t : SimLedger)
    (h : ¬(amount > userValue t)) :
    (simulateVaultWithdraw amount t).2 =
      { mockTokenBalance := t.mockTokenBalance + amount,
        vault :=
          { totalLiquidity := max 0 (t.vault.totalLiquidity - amount),
            userShares := max 0 (t.vault.userShares -
              amount / t.vault.totalLiquidity * t.vault.totalShares),
            apy := t.vault.apy,
            totalShares := max 0 (t.vault.totalShares -
              amount / t.vault.totalLiquidity * t.vault.totalShares),
            userDeposited := max 0 (t.vault.userDeposited - amount) } } := by
  simp [simulateVaultWithdraw, h]

/-- Claim C7 (confirmed): from any vault state with positive total
shares and balance at least 100, depositing 100 and then withdrawing 100
(provided 100 does not exceed the post-deposit user value) restores the
token balance exactly, and when the user held no shares before the
deposit, the round trip leaves the user share count at exactly 0 — the
rational-arithmetic model even needs no rounding tolerance. -/
theorem vault_round_trip (s : SimLedger)
    (hTS : 0 < s.vault.totalShares) (hbal : 100 ≤ s.mockTokenBalance)
    (hval : 100 ≤ userValue (simulateVaultDeposit 100 s).2) :
    (simulateVaultWithdraw 100 (simulateVaultDeposit 100 s).2).2.mockTokenBalance
        = s.mockTokenBalance ∧
    (s.vault.userShares = 0 →
      (simulateVaultWithdraw 100 (simulateVaultDeposit 100 s).2).2.vault.userShares = 0) := by
  have hnd : ¬((100 : ℚ) > s.mockTokenBalance) := not_lt.mpr hbal
  have hmax : max 0 (s.mockTokenBalance - 100) = s.mockTokenBalance - 100 :=
    max_eq_right (by linarith)
  have hs1 : (simulateVaultDeposit 100 s).2 =
      { mockTokenBalance := s.mockTokenBalance - 100,
        vault :=
          { totalLiquidity := s.vault.totalLiquidity + 100,
            userShares := s.vault.userShares +
              100 / s.vault.totalLiquidity * s.vault.totalShares,
            apy := s.vault.apy,
            totalShares := s.vault.totalShares +
              100 / s.vault.totalLiquidity * s.vault.totalShares,
            userDeposited := s.vault.userDeposited + 100 } } := by
    simp [simulateVaultDeposit, hnd, hTS, hmax]
  rw [hs1] at hval ⊢
  have hw := not_lt.mpr hval
  rw [simulateVaultWithdraw_ok _ _ hw]
  constructor
  · show s.mockTokenBalance - 100 + 100 = s.mockTokenBalance
    ring
  · intro hUS
    have hTL : s.vault.totalLiquidity ≠ 0 := by
      intro h0
      rw [h0] at hval
      norm_num [userValue, hUS, hTS] at hval
    have hTL100 : s.vault.totalLiquidity + 100 ≠ 0 := by
      intro h0
      rw [h0] at hval
      norm_num [userValue, hUS, hTS] at hval
    have key : (100 : ℚ) / (s.vault.totalLiquidity + 100) *
        (s.vault.totalShares + 100 / s.vault.totalLiquidity * s.vault.totalShares) =
        100 / s.vault.totalLiquidity * s.vault.totalShares := by
      field_simp
      ring
    show max 0 (s.vault.userShares + 100 / s.vault.totalLiquidity * s.vault.totalShares -
      100 / (s.vault.totalLiquidity + 100) *
        (s.vault.totalShares + 100 / s.vault.totalLiquidity * s.vault.totalShares)) = 0
    rw [key, hUS]
    simp

/-- The default demo vault (150000 liquidity, 100000 shares, no user
position) with the default 1000 token balance. -/
def vaultLedger0 : SimLedger :=
  { mockTokenBalance := 1000,
    vault := { totalLiquidity := 150000, userShares := 0, apy := 25 / 2,
               totalShares := 100000, userDeposited := 0 } }

/-- Witness for C7: on the default demo vault, deposit 100 then withdraw
100 gives back the 1000 balance and 0 user shares. -/
theorem vault_round_trip_witness :
    (simulateVaultWithdraw 100 (simulateVaultDeposit 100 vaultLedger0).2).2.mockTokenBalance
        = 1000 ∧
    (simulateVaultWithdraw 100 (simulateVaultDeposit 100 vaultLedger0).2).2.vault.userShares
        = 0 := by
  have h := vault_round_trip vaultLedger0 (by norm_num [vaultLedger0])
    (by norm_num [vaultLedger0])
    (by norm_num [vaultLedger0, simulateVaultDeposit, userValue])
  exact ⟨by rw [h.1]; rfl, h.2 rfl⟩


/-- The poll loop emits only sleep and poll events. -/
theorem pollLoop_events (f : Nat → PollOutcome) (hash : String) :
    ∀ n i e, e ∈ (pollLoop f hash i n).2 →
      (∃ m, e = Event.sleep m) ∨ ∃ j, e = Event.poll j := by
  intro n
  induction n with
  | zero => intro i e he; simp [pollLoop] at he
  | succ n ih =>
    intro i e he
    simp only [pollLoop] at he
    cases hfi : f i <;> rw [hfi] at he <;> simp at he
    · rcases he with h | h
      · exact Or.inl ⟨2000, h⟩
      · exact Or.inr ⟨i, h⟩
    · rcases he with h | h
      · exact Or.inl ⟨2000, h⟩
      · exact Or.inr ⟨i, h⟩
    · rcases he with h | h | h
      · exact Or.inl ⟨2000, h⟩
      · exact Or.inr ⟨i, h⟩
      · exact ih (i + 1) e h
    · rcases he with h | h | h
      · exact Or.inl ⟨2000, h⟩
      · exact Or.inr ⟨i, h⟩
      · exact ih (i + 1) e h

/-- The post-submission status handling emits only sleep and poll
events. -/
theorem handleSendResult_events (env : NetworkEnv) (e : Event)
    (he : e ∈ (handleSendResult env).2) :
    (∃ m, e = Event.sleep m) ∨ ∃ j, e = Event.poll j := by
  unfold handleSendResult at he
  split_ifs at he
  · simp at he
  · exact pollLoop_events env.poll env.sendHash 10 0 e he
  · simp at he

/-- Any create_position simulation event in an `executeTrade` trace
carries exactly the arguments assembled by `buildCreatePositionArgs`. -/
theorem executeTrade_simulateCreate_mem (market pk : String) (isLong : Bool)
    (amount : Option ℚ) (lev : Int) (authOk : Bool) (env : NetworkEnv)
    (args : CreatePositionArgs)
    (h : Event.simulateCreate args ∈
      (executeTrade market isLong amount lev authOk pk env).2) :
    args = buildCreatePositionArgs pk market isLong (amount.getD 0) lev := by
  cases hsim : env.simError with
  | some msg =>
      unfold executeTrade at h
      rw [hsim] at h
      split_ifs at h <;> simp at h
      exact h
  | none =>
      unfold executeTrade at h
      rw [hsim] at h
      split_ifs at h <;> simp at h
      rcases h with h | h
      · exact h
      · rcases handleSendResult_events env _ h with ⟨m, hm⟩ | ⟨j, hj⟩
        · simp at hm
        · simp at hj

/-- Any submit simulation event in an `executeTradeViaSubmit` trace
carries exactly the single open-position request. -/
theorem executeTradeViaSubmit_request_mem (market pk : String) (isLong : Bool)
    (amount : Option ℚ) (lev : Int) (authOk : Bool) (env : NetworkEnv)
    (trader : String) (reqs : List SubmitRequest)
    (h : Event.simulateSubmit trader reqs ∈
      (executeTradeViaSubmit market isLong amount lev authOk pk env).2) :
    reqs = [buildOpenPositionRequest] := by
  cases hsim : env.simError with
  | some msg =>
      unfold executeTradeViaSubmit at h
      rw [hsim] at h
      split_ifs at h <;> simp at h
      exact h.2
  | none =>
      unfold executeTradeViaSubmit at h
      rw [hsim] at h
      split_ifs at h <;> simp at h
      rcases h with ⟨h1, h2⟩ | h
      · exact h2
      · rcases handleSendResult_events env _ h with ⟨m, hm⟩ | ⟨j, hj⟩
        · simp at hm
        · simp at hj

/-- Claim C10 (confirmed): on both real trade paths the entry price
transmitted to the contract is the hardcoded constant 5000000 (0.50
scaled by 10^7), whatever the market, direction, amount, leverage,
account or network behaviour. -/
theorem entryPrice_hardcoded (pk market : String) (isLong : Bool) (q : ℚ)
    (amount : Option ℚ) (lev : Int) (authOk : Bool) (env : NetworkEnv) :
    (buildCreatePositionArgs pk market isLong q lev).entryPrice = 5000000 ∧
    buildOpenPositionRequest.data = 5000000 ∧
    (∀ args, Event.simulateCreate args ∈
        (executeTrade market isLong amount lev authOk pk env).2 →
      args.entryPrice = 5000000) ∧
    (∀ trader reqs, Event.simulateSubmit trader reqs ∈
        (executeTradeViaSubmit market isLong amount lev authOk pk env).2 →
      ∀ r ∈ reqs, r.data = 5000000) := by
  have hconst : entryPriceConst = 5000000 := by
    have h1 : ((1 : ℚ) / 2 * 10 ^ 7) = ((5000000 : ℤ) : ℚ) := by norm_num
    rw [entryPriceConst, h1, Int.floor_intCast]
  refine ⟨hconst, hconst, ?_, ?_⟩
  · intro args hmem
    rw [executeTrade_simulateCreate_mem market pk isLong amount lev authOk env args hmem]
    exact hconst
  · intro trader reqs hmem r hr
    rw [executeTradeViaSubmit_request_mem market pk isLong amount lev authOk env
      trader reqs hmem] at hr
    simp at hr
    rw [hr]
    exact hconst

/-- Witness for C10: the arguments actually simulated on a concrete
successful run carry entry price 5000000, as does the submit request. -/
theorem entryPrice_hardcoded_witness :
    (buildCreatePositionArgs "GA" "XLM" true 1 2).entryPrice = 5000000 ∧
    buildOpenPositionRequest.data = 5000000 := by
  refine ⟨(entryPrice_hardcoded "GA" "XLM" true 1 (some 1) 2 true envSendSuccess).2.2.1
    (buildCreatePositionArgs "GA" "XLM" true 1 2) ?_,
    (entryPrice_hardcoded "GA" "XLM" true 1 (some 1) 2 true envSendSuccess).2.1⟩
  have hcond : ¬(("XLM" : String) = "" ∨ (some (1 : ℚ) : Option ℚ) = none) := by simp
  norm_num [executeTrade, handleSendResult, envSendSuccess, hcond]
